/-
Verification of the mdns_monitor repository (src/mdns_monitor.py and
src/mdns.py) against its natural-language specification.

The scripts keep a dictionary `services : name -> ServiceInfo`, mutate it
from zeroconf service-state-change callbacks, display it, and register a
service with a hard-coded address.  We embed that bookkeeping logic
shallowly: the Python dict becomes an association list with the update
semantics of dict assignment and `del`, the callbacks become pure
functions returning the new state together with the list of printed
service notifications, and the external zeroconf lookup
`zeroconf.get_service_info` becomes an `Option ServiceInfo` argument.
-/
import Mathlib

set_option maxHeartbeats 1000000

/-- A packed binary network address, as produced by `socket.inet_aton`
(a list of byte values; IPv4 addresses have exactly four). -/
abbrev PackedAddr := List Nat

/-- Split a character list at every dot (the grouping step of parsing a
dotted-quad address string). -/
def splitDots : List Char → List (List Char)
  | [] => [[]]
  | c :: rest =>
    let r := splitDots rest
    if c = '.' then [] :: r
    else
      match r with
      | [] => [[c]]
      | g :: gs => (c :: g) :: gs

/-- The numeric value of a decimal digit character, if it is one. -/
def digitVal (c : Char) : Option Nat :=
  if c.isDigit then some (c.toNat - 48) else none

/-- Accumulate a decimal number from digit characters; fails on a
non-digit. -/
def parseDecAux : List Char → Nat → Option Nat
  | [], acc => some acc
  | c :: rest, acc =>
    match digitVal c with
    | some d => parseDecAux rest (acc * 10 + d)
    | none => none

/-- Parse a nonempty decimal digit string. -/
def parseDec (cs : List Char) : Option Nat :=
  match cs with
  | [] => none
  | _ => parseDecAux cs 0

/-- `socket.inet_aton` on a dotted-quad string: parse four dot-separated
decimal octets into the packed 4-byte form; fails on anything else. -/
def inet_aton (s : String) : Option PackedAddr :=
  match (splitDots s.toList).mapM parseDec with
  | some [a, b, c, d] =>
    if a < 256 && b < 256 && c < 256 && d < 256 then some [a, b, c, d] else none
  | _ => none

/-- `socket.inet_ntoa`: format a packed 4-byte address as a dotted quad;
raises (here: `none`) when the input is not exactly four bytes. -/
def inet_ntoa (p : PackedAddr) : Option String :=
  match p with
  | [a, b, c, d] =>
    some (toString a ++ "." ++ toString b ++ "." ++ toString c ++ "." ++ toString d)
  | _ => none

/-- The part of a zeroconf `ServiceInfo` that mdns_monitor.py reads:
its address list and port. -/
structure ServiceInfo where
  addresses : List PackedAddr
  port : Nat
deriving DecidableEq, Repr

/-- A zeroconf `ServiceBrowser`, abstracted to the service type it was
constructed for. -/
structure ServiceBrowser where
  serviceType : String
deriving DecidableEq, Repr

/-- `zeroconf.ServiceStateChange`. -/
inductive ServiceStateChange where
  | Added
  | Removed
  | Updated
deriving DecidableEq, Repr

/-- One line printed by the monitor about a service (the observable
events of the callbacks). -/
inductive Notification where
  | added (name : String)
  | removed (name : String)
  | addedByBrowser (name : String)
  | removedByBrowser (name : String)
deriving DecidableEq, Repr

/-- Python dict assignment `m[k] = v` on an association list: replace the
entry for `k` in place if present, otherwise append a new entry. -/
def dictInsert (m : List (String × ServiceInfo)) (k : String) (v : ServiceInfo) :
    List (String × ServiceInfo) :=
  match m with
  | [] => [(k, v)]
  | (k', v') :: rest =>
    if k' = k then (k, v) :: rest else (k', v') :: dictInsert rest k v

/-- Python `del m[k]`: drop the entry for `k` (the first one, which is the
only one when keys are distinct). -/
def dictDelete (m : List (String × ServiceInfo)) (k : String) :
    List (String × ServiceInfo) :=
  match m with
  | [] => []
  | (k', v') :: rest =>
    if k' = k then rest else (k', v') :: dictDelete rest k

/-- Python `k in m`: membership test on the keys. -/
def dictContains (m : List (String × ServiceInfo)) (k : String) : Bool :=
  match m with
  | [] => false
  | (k', _) :: rest => k' = k || dictContains rest k

/-- Python `m[k]` as a partial lookup. -/
def dictGet (m : List (String × ServiceInfo)) (k : String) : Option ServiceInfo :=
  match m with
  | [] => none
  | (k', v) :: rest => if k' = k then some v else dictGet rest k

/-- The mutable state of `MDNSMonitor`: the `services` dict and the
current `browser` object (`zeroconf` and `stop_event` carry no state the
claims touch). -/
structure MDNSMonitor where
  services : List (String × ServiceInfo)
  browser : ServiceBrowser
deriving DecidableEq, Repr

/-- The monitor as built by `MDNSMonitor.__init__`: empty `services` and
a browser for the hard-coded service type. -/
def initMonitor : MDNSMonitor :=
  { services := [], browser := { serviceType := "_http._tcp.local." } }

/-- `MDNSMonitor.add_service`: look up the service (the result of
`zeroconf.get_service_info` is passed in as `info`); when it is non-None,
store it under `name` and print the added notification, otherwise do
nothing. -/
def MDNSMonitor.add_service (m : MDNSMonitor) (name : String)
    (info : Option ServiceInfo) : MDNSMonitor × List Notification :=
  match info with
  | some i => ({ m with services := dictInsert m.services name i },
               [Notification.added name])
  | none => (m, [])

/-- `MDNSMonitor.remove_service`: when `name` is a key of `services`,
delete it and print the removed notification, otherwise do nothing. -/
def MDNSMonitor.remove_service (m : MDNSMonitor) (name : String) :
    MDNSMonitor × List Notification :=
  if dictContains m.services name then
    ({ m with services := dictDelete m.services name },
     [Notification.removed name])
  else (m, [])

/-- `MDNSMonitor.on_service_state_change`: dispatch on the state change;
`Added` calls `add_service` and prints the browser notification,
`Removed` calls `remove_service` and prints the browser notification,
and any other state change does nothing. -/
def MDNSMonitor.on_service_state_change (m : MDNSMonitor) (name : String)
    (state_change : ServiceStateChange) (info : Option ServiceInfo) :
    MDNSMonitor × List Notification :=
  match state_change with
  | ServiceStateChange.Added =>
    let r := m.add_service name info
    (r.1, r.2 ++ [Notification.addedByBrowser name])
  | ServiceStateChange.Removed =>
    let r := m.remove_service name
    (r.1, r.2 ++ [Notification.removedByBrowser name])
  | ServiceStateChange.Updated => (m, [])

/-- One line of `display_services` output for a stored entry: Python
evaluates `socket.inet_ntoa(info.addresses[0])`, which raises an
IndexError when the address list is empty (and inet_ntoa raises on a
non-4-byte address); `none` models the raised exception. -/
def displayLine (name : String) (info : ServiceInfo) : Option String :=
  match info.addresses with
  | [] => none
  | a :: _ =>
    match inet_ntoa a with
    | none => none
    | some s => some (" - " ++ name ++ " at " ++ s ++ ":" ++ toString info.port)

/-- `MDNSMonitor.display_services`: print one line per stored entry
(failing, as the Python does, if a line cannot be formatted) and leave
the monitor state untouched. -/
def MDNSMonitor.display_services (m : MDNSMonitor) :
    Option (List String) × MDNSMonitor :=
  (m.services.mapM (fun p => displayLine p.1 p.2), m)

/-- One iteration of the body of `MDNSMonitor.send_mdns_query`: print the
query line and replace `self.browser` with a freshly constructed
`ServiceBrowser` for the hard-coded service type. -/
def MDNSMonitor.send_mdns_query_iter (m : MDNSMonitor) : MDNSMonitor :=
  { m with browser := { serviceType := "_http._tcp.local." } }

/-- `MDNSCmd.do_query`: print the query line and replace
`self.monitor.browser` with a freshly constructed `ServiceBrowser` for
the hard-coded service type. -/
def MDNSCmd.do_query (m : MDNSMonitor) : MDNSMonitor :=
  { m with browser := { serviceType := "_http._tcp.local." } }

/-- An abstract operation against the service store, for stating
invariants over arbitrary operation sequences.  `add` carries the
`get_service_info` result observed during that call. -/
inductive Op where
  | add (name : String) (info : Option ServiceInfo)
  | remove (name : String)
deriving DecidableEq, Repr

/-- Apply one operation to the monitor (dropping the notifications). -/
def applyOp (m : MDNSMonitor) (op : Op) : MDNSMonitor :=
  match op with
  | Op.add name info => (m.add_service name info).1
  | Op.remove name => (m.remove_service name).1

/-- Apply a sequence of operations, left to right. -/
def applyOps (m : MDNSMonitor) (ops : List Op) : MDNSMonitor :=
  ops.foldl applyOp m

/-- The full `ServiceInfo` built by `register_mdns_service` in mdns.py:
service type, instance name, addresses, port and properties. -/
structure RegServiceInfo where
  type_ : String
  name : String
  addresses : List PackedAddr
  port : Nat
  properties : List (String × String)
deriving DecidableEq, Repr

/-- `register_mdns_service(port)` from mdns.py: build the `ServiceInfo`
with the hard-coded name, the single hard-coded address
`inet_aton("192.168.1.100")` and the given port, and register it. -/
def register_mdns_service (port : Nat) : RegServiceInfo :=
  { type_ := "_http._tcp.local."
    name := "MyService._http._tcp.local."
    addresses := match inet_aton "192.168.1.100" with
                 | some a => [a]
                 | none => []
    port := port
    properties := [("path", "/")] }

/-- The loop condition of the keep-alive loop `while True: pass` in the
main block of mdns.py, as a function of the iteration count. -/
def keepAliveCond (_iteration : Nat) : Bool := true

/-- Whether the keep-alive loop is still running after `n` iterations:
it runs as long as every loop-condition check so far returned true. -/
def keepAliveRuns : Nat → Bool
  | 0 => true
  | n + 1 => keepAliveCond n && keepAliveRuns n

/-! ### Helper lemmas about the dict operations -/

lemma dictContains_iff_mem (m : List (String × ServiceInfo)) (k : String) :
    dictContains m k = true ↔ k ∈ m.map Prod.fst := by
  induction m with
  | nil => simp [dictContains]
  | cons p rest ih =>
    obtain ⟨k1, v1⟩ := p
    by_cases h : k1 = k
    · simp [dictContains, h]
    · simp [dictContains, h, ih, Ne.symm h]

lemma dictGet_eq_none_of_not_mem (m : List (String × ServiceInfo)) (k : String)
    (h : k ∉ m.map Prod.fst) : dictGet m k = none := by
  induction m with
  | nil => rfl
  | cons p rest ih =>
    obtain ⟨k1, v1⟩ := p
    simp only [List.map_cons, List.mem_cons, not_or] at h
    simp [dictGet, Ne.symm h.1, ih h.2]

lemma dictInsert_map_fst (m : List (String × ServiceInfo)) (k : String) (v : ServiceInfo) :
    (dictInsert m k v).map Prod.fst =
      if dictContains m k then m.map Prod.fst else m.map Prod.fst ++ [k] := by
  induction m with
  | nil => simp [dictInsert, dictContains]
  | cons p rest ih =>
    obtain ⟨k1, v1⟩ := p
    by_cases h : k1 = k
    · simp [dictInsert, dictContains, h]
    · by_cases hr : dictContains rest k
      <;> simp [dictInsert, dictContains, h, hr, ih]

lemma dictInsert_nodup (m : List (String × ServiceInfo)) (k : String) (v : ServiceInfo)
    (h : (m.map Prod.fst).Nodup) : ((dictInsert m k v).map Prod.fst).Nodup := by
  rw [dictInsert_map_fst]
  by_cases hc : dictContains m k
  · simpa [hc] using h
  · have hk : k ∉ m.map Prod.fst := by
      intro hmem
      exact hc ((dictContains_iff_mem m k).mpr hmem)
    simp only [hc, if_false]
    refine List.Nodup.append h (List.nodup_singleton k) ?_
    intro a ha hb
    rw [List.mem_singleton] at hb
    subst hb
    exact hk ha

lemma dictInsert_count_self (m : List (String × ServiceInfo)) (k : String) (v : ServiceInfo)
    (h : (m.map Prod.fst).Nodup) :
    ((dictInsert m k v).map Prod.fst).count k = 1 := by
  rw [dictInsert_map_fst]
  by_cases hc : dictContains m k
  · have hk : k ∈ m.map Prod.fst := (dictContains_iff_mem m k).mp hc
    simpa [hc] using List.count_eq_one_of_mem h hk
  · have hk : k ∉ m.map Prod.fst := by
      intro hmem
      exact hc ((dictContains_iff_mem m k).mpr hmem)
    simp [hc, List.count_append, List.count_eq_zero_of_not_mem hk]

lemma dictGet_dictInsert_self (m : List (String × ServiceInfo)) (k : String) (v : ServiceInfo) :
    dictGet (dictInsert m k v) k = some v := by
  induction m with
  | nil => simp [dictInsert, dictGet]
  | cons p rest ih =>
    obtain ⟨k1, v1⟩ := p
    by_cases h : k1 = k
    · simp [dictInsert, dictGet, h]
    · simp [dictInsert, dictGet, h, ih]

lemma dictDelete_sublist (m : List (String × ServiceInfo)) (k : String) :
    List.Sublist (dictDelete m k) m := by
  induction m with
  | nil => simp [dictDelete]
  | cons p rest ih =>
    obtain ⟨k1, v1⟩ := p
    by_cases h : k1 = k
    · simp only [dictDelete, if_pos h]
      exact List.sublist_cons_self (k1, v1) rest
    · simp only [dictDelete, if_neg h]
      exact List.Sublist.cons₂ (k1, v1) ih

lemma dictDelete_nodup (m : List (String × ServiceInfo)) (k : String)
    (h : (m.map Prod.fst).Nodup) : ((dictDelete m k).map Prod.fst).Nodup :=
  List.Nodup.sublist (List.Sublist.map Prod.fst (dictDelete_sublist m k)) h

lemma dictGet_dictDelete_self (m : List (String × ServiceInfo)) (k : String)
    (h : (m.map Prod.fst).Nodup) : dictGet (dictDelete m k) k = none := by
  induction m with
  | nil => rfl
  | cons p rest ih =>
    obtain ⟨k1, v1⟩ := p
    simp only [List.map_cons, List.nodup_cons] at h
    by_cases hk : k1 = k
    · subst hk
      simpa [dictDelete] using dictGet_eq_none_of_not_mem rest k1 h.1
    · simp [dictDelete, dictGet, hk, ih h.2]

lemma dictGet_dictDelete_other (m : List (String × ServiceInfo)) (k k2 : String)
    (h : k2 ≠ k) : dictGet (dictDelete m k) k2 = dictGet m k2 := by
  induction m with
  | nil => rfl
  | cons p rest ih =>
    obtain ⟨k1, v1⟩ := p
    by_cases hk : k1 = k
    · subst hk
      simp [dictDelete, dictGet, Ne.symm h]
    · by_cases hk2 : k1 = k2
      <;> simp [dictDelete, dictGet, hk, hk2, h, ih]

lemma dictDelete_length (m : List (String × ServiceInfo)) (k : String)
    (h : dictContains m k = true) : (dictDelete m k).length + 1 = m.length := by
  induction m with
  | nil => simp [dictContains] at h
  | cons p rest ih =>
    obtain ⟨k1, v1⟩ := p
    by_cases hk : k1 = k
    · simp [dictDelete, hk]
    · have hr : dictContains rest k = true := by
        simpa [dictContains, hk] using h
      have ih2 := ih hr
      simp only [dictDelete, if_neg hk, List.length_cons]
      omega

lemma applyOp_nodup (m : MDNSMonitor) (op : Op)
    (h : (m.services.map Prod.fst).Nodup) :
    ((applyOp m op).services.map Prod.fst).Nodup := by
  cases op with
  | add name info =>
    cases info with
    | some i => exact dictInsert_nodup m.services name i h
    | none => exact h
  | remove name =>
    by_cases hc : dictContains m.services name
    · simpa [applyOp, MDNSMonitor.remove_service, hc] using
        dictDelete_nodup m.services name h
    · simpa [applyOp, MDNSMonitor.remove_service, hc] using h

lemma applyOps_nodup (ops : List Op) (m : MDNSMonitor)
    (h : (m.services.map Prod.fst).Nodup) :
    ((applyOps m ops).services.map Prod.fst).Nodup := by
  induction ops generalizing m with
  | nil => exact h
  | cons op rest ih => exact ih (applyOp m op) (applyOp_nodup m op h)

lemma mapM_eq_some_map {α β : Type} (f : α → Option β) (d : β) (l : List α)
    (h : ∀ a ∈ l, (f a).isSome) :
    l.mapM f = some (l.map fun a => (f a).getD d) := by
  rw [← List.mapM'_eq_mapM]
  induction l with
  | nil => rfl
  | cons a rest ih =>
    obtain ⟨b, hb⟩ := Option.isSome_iff_exists.mp (h a (List.mem_cons_self a rest))
    have hr := ih (fun x hx => h x (List.mem_cons_of_mem a hx))
    simp [List.mapM'_cons, hb, hr]

/-! ### The claims -/

/-- Concrete service info used to exercise the double-add behaviour. -/
def infoC1 : ServiceInfo := { addresses := [[192, 168, 1, 100]], port := 80 }

/-- C1, counterexample: adding the same service record twice from the
empty monitor leaves exactly one entry for the name, but the two calls
print two added notifications, not exactly one as the claim states. -/
theorem add_service_twice_counterexample :
    ((((initMonitor.add_service "svc" (some infoC1)).1.add_service "svc"
        (some infoC1)).1.services.map Prod.fst).count "svc" = 1) ∧
    ¬ (((initMonitor.add_service "svc" (some infoC1)).2 ++
        ((initMonitor.add_service "svc" (some infoC1)).1.add_service "svc"
          (some infoC1)).2).length = 1) := by decide

/-- C1, amended: two consecutive `add_service` calls with the same name
and the same (non-None) info yield exactly one entry for the name, store
that info, and print one added notification per call (two in total). -/
theorem add_service_twice (m : MDNSMonitor) (name : String) (i : ServiceInfo)
    (hnd : (m.services.map Prod.fst).Nodup) :
    ((((m.add_service name (some i)).1.add_service name
        (some i)).1.services.map Prod.fst).count name = 1) ∧
    dictGet ((m.add_service name (some i)).1.add_service name
        (some i)).1.services name = some i ∧
    (m.add_service name (some i)).2 = [Notification.added name] ∧
    ((m.add_service name (some i)).1.add_service name (some i)).2 =
      [Notification.added name] := by
  refine ⟨?_, ?_, rfl, rfl⟩
  · exact dictInsert_count_self _ name i (dictInsert_nodup m.services name i hnd)
  · exact dictGet_dictInsert_self _ name i

/-- Witness for C1's amended theorem at a concrete input. -/
theorem add_service_twice_witness :
    (initMonitor.services.map Prod.fst).Nodup ∧
    ((((initMonitor.add_service "svc" (some infoC1)).1.add_service "svc"
        (some infoC1)).1.services.map Prod.fst).count "svc" = 1) :=
  ⟨by decide, (add_service_twice initMonitor "svc" infoC1 (by decide)).1⟩

/-- C2: when `name` is present in `services`, `remove_service` deletes
exactly that entry (the name no longer resolves, every other name
resolves as before, the store shrinks by one, the browser is untouched)
and prints exactly one removed notification. -/
theorem remove_service_present (m : MDNSMonitor) (name : String)
    (hc : dictContains m.services name = true)
    (hnd : (m.services.map Prod.fst).Nodup) :
    dictGet (m.remove_service name).1.services name = none ∧
    (∀ n, n ≠ name →
      dictGet (m.remove_service name).1.services n = dictGet m.services n) ∧
    (m.remove_service name).1.services.length + 1 = m.services.length ∧
    (m.remove_service name).2 = [Notification.removed name] ∧
    (m.remove_service name).1.browser = m.browser := by
  have e : m.remove_service name =
      ({ m with services := dictDelete m.services name },
       [Notification.removed name]) := by
    simp [MDNSMonitor.remove_service, hc]
  rw [e]
  exact ⟨dictGet_dictDelete_self m.services name hnd,
    fun n hn => dictGet_dictDelete_other m.services name n hn,
    dictDelete_length m.services name hc, rfl, rfl⟩

/-- Concrete monitor holding two services, used to exercise removal. -/
def monitorC2 : MDNSMonitor :=
  { services := [("a", { addresses := [[10, 0, 0, 1]], port := 80 }),
                 ("b", { addresses := [[10, 0, 0, 2]], port := 81 })],
    browser := { serviceType := "_http._tcp.local." } }

/-- Witness for C2 at a concrete input. -/
theorem remove_service_present_witness :
    dictContains monitorC2.services "a" = true ∧
    (monitorC2.services.map Prod.fst).Nodup ∧
    (dictGet (monitorC2.remove_service "a").1.services "a" = none ∧
     (monitorC2.remove_service "a").2 = [Notification.removed "a"]) :=
  ⟨by decide, by decide,
   (remove_service_present monitorC2 "a" (by decide) (by decide)).1,
   (remove_service_present monitorC2 "a" (by decide) (by decide)).2.2.2.1⟩

/-- C3: when `name` is not a key of `services`, `remove_service` is a
no-op: the monitor is unchanged and nothing is printed. -/
theorem remove_service_absent (m : MDNSMonitor) (name : String)
    (hc : dictContains m.services name = false) :
    m.remove_service name = (m, []) := by
  simp [MDNSMonitor.remove_service, hc]

/-- Witness for C3 at a concrete input. -/
theorem remove_service_absent_witness :
    dictContains initMonitor.services "ghost" = false ∧
    initMonitor.remove_service "ghost" = (initMonitor, []) :=
  ⟨by decide, remove_service_absent initMonitor "ghost" (by decide)⟩

/-- C4: after any sequence of add/remove operations starting from the
freshly initialised monitor, the keys of `services` are pairwise
distinct (at most one entry per name); and re-adding an existing name
replaces the stored info without changing the key set. -/
theorem services_no_duplicate_keys :
    (∀ ops : List Op,
      ((applyOps initMonitor ops).services.map Prod.fst).Nodup) ∧
    (∀ (m : MDNSMonitor) (name : String) (i : ServiceInfo),
      dictContains m.services name = true →
      (m.add_service name (some i)).1.services.map Prod.fst =
        m.services.map Prod.fst) := by
  constructor
  · intro ops
    exact applyOps_nodup ops initMonitor (by simp [initMonitor])
  · intro m name i hc
    show (dictInsert m.services name i).map Prod.fst = m.services.map Prod.fst
    rw [dictInsert_map_fst, if_pos hc]

/-- Concrete service info used to exercise the key-uniqueness invariant. -/
def infoC4 : ServiceInfo := { addresses := [[1, 2, 3, 4]], port := 8080 }

/-- Concrete monitor holding one service, used to exercise re-adding. -/
def monitorC4 : MDNSMonitor :=
  { services := [("a", { addresses := [[10, 0, 0, 9]], port := 99 })],
    browser := { serviceType := "_http._tcp.local." } }

/-- Witness for C4 at concrete inputs. -/
theorem services_no_duplicate_keys_witness :
    ((applyOps initMonitor
        [Op.add "a" (some infoC4), Op.add "a" (some infoC4),
         Op.remove "b"]).services.map Prod.fst).Nodup ∧
    dictContains monitorC4.services "a" = true ∧
    (monitorC4.add_service "a" (some infoC4)).1.services.map Prod.fst =
      monitorC4.services.map Prod.fst :=
  ⟨services_no_duplicate_keys.1 _, by decide,
   services_no_duplicate_keys.2 monitorC4 "a" infoC4 (by decide)⟩

/-- C5: `register_mdns_service` always registers the single hard-coded
address `inet_aton("192.168.1.100")`, for every port, and the address
list does not depend on the port argument. -/
theorem register_mdns_service_fixed_address (port : Nat) :
    (register_mdns_service port).addresses = [[192, 168, 1, 100]] ∧
    inet_aton "192.168.1.100" = some [192, 168, 1, 100] ∧
    ∀ q : Nat,
      (register_mdns_service port).addresses = (register_mdns_service q).addresses := by
  refine ⟨?_, by decide, fun q => rfl⟩
  show (match inet_aton "192.168.1.100" with
        | some a => [a]
        | none => []) = [[192, 168, 1, 100]]
  have e : inet_aton "192.168.1.100" = some [192, 168, 1, 100] := by decide
  rw [e]

/-- C6: every renew/query operation (one iteration of `send_mdns_query`
and the `do_query` command) leaves the services mapping unchanged and
replaces the browser with a newly constructed `ServiceBrowser` for the
service type "_http._tcp.local.". -/
theorem query_renews_browser (m : MDNSMonitor) :
    m.send_mdns_query_iter.services = m.services ∧
    m.send_mdns_query_iter.browser =
      { serviceType := "_http._tcp.local." } ∧
    (MDNSCmd.do_query m).services = m.services ∧
    (MDNSCmd.do_query m).browser = { serviceType := "_http._tcp.local." } :=
  ⟨rfl, rfl, rfl, rfl⟩

/-- Concrete monitor whose single stored service has an empty address
list, as the code admits (nothing filters such infos before storage). -/
def monitorC7bad : MDNSMonitor :=
  { services := [("svc", { addresses := [], port := 80 })],
    browser := { serviceType := "_http._tcp.local." } }

/-- C7, counterexample: at a state whose stored info has no addresses,
`display_services` does not report the stored entry — the Python raises
IndexError on `info.addresses[0]` — even though an entry is present. -/
theorem display_services_counterexample :
    monitorC7bad.services ≠ [] ∧
    (monitorC7bad.display_services).1 = none ∧
    (monitorC7bad.display_services).2 = monitorC7bad := by decide

/-- C7, amended: `display_services` never changes the monitor state, and
whenever every stored info can be formatted (a nonempty address list
whose head is a 4-byte address), it reports exactly one line per stored
entry, in store order. -/
theorem display_services_spec (m : MDNSMonitor) :
    (m.display_services).2 = m ∧
    ((∀ p ∈ m.services, (displayLine p.1 p.2).isSome) →
      (m.display_services).1 =
        some (m.services.map fun p => (displayLine p.1 p.2).getD "")) :=
  ⟨rfl, fun h =>
    mapM_eq_some_map (fun p : String × ServiceInfo => displayLine p.1 p.2)
      "" m.services h⟩

/-- Concrete monitor with one displayable service. -/
def monitorC7ok : MDNSMonitor :=
  { services := [("svc", { addresses := [[192, 168, 1, 100]], port := 8080 })],
    browser := { serviceType := "_http._tcp.local." } }

/-- Witness for C7's amended theorem at a concrete input. -/
theorem display_services_spec_witness :
    (monitorC7ok.display_services).2 = monitorC7ok ∧
    (monitorC7ok.display_services).1 =
      some (monitorC7ok.services.map fun p => (displayLine p.1 p.2).getD "") :=
  ⟨(display_services_spec monitorC7ok).1,
   (display_services_spec monitorC7ok).2 (by decide)⟩

/-- C8: the keep-alive loop `while True: pass` in mdns.py never
terminates normally: after any number of iterations it is still running,
and the loop condition is true at every check. -/
theorem keep_alive_loop_never_terminates (n : Nat) :
    keepAliveRuns n = true ∧ keepAliveCond n = true := by
  refine ⟨?_, rfl⟩
  induction n with
  | zero => rfl
  | succ k ih => simp [keepAliveRuns, keepAliveCond, ih]

/-- C9: when `get_service_info` returns no info, `add_service` leaves
the monitor unchanged and prints nothing, so no name is ever mapped to
a missing info (stored values are always actual infos). -/
theorem add_service_none_no_change (m : MDNSMonitor) (name : String) :
    m.add_service name none = (m, []) := rfl

/-- C10: a state change other than `Added` or `Removed` (such as
`Updated`) makes `on_service_state_change` leave the monitor unchanged
and print nothing. -/
theorem state_change_other_no_effect (m : MDNSMonitor) (name : String)
    (info : Option ServiceInfo) (sc : ServiceStateChange)
    (h1 : sc ≠ ServiceStateChange.Added)
    (h2 : sc ≠ ServiceStateChange.Removed) :
    m.on_service_state_change name sc info = (m, []) := by
  cases sc with
  | Added => exact absurd rfl h1
  | Removed => exact absurd rfl h2
  | Updated => rfl

/-- Witness for C10 at a concrete input. -/
theorem state_change_other_no_effect_witness :
    ServiceStateChange.Updated ≠ ServiceStateChange.Added ∧
    initMonitor.on_service_state_change "svc" ServiceStateChange.Updated none =
      (initMonitor, []) :=
  ⟨by decide,
   state_change_other_no_effect initMonitor "svc" none
     ServiceStateChange.Updated (by decide) (by decide)⟩
